import Mathlib

/-!
Verification of the ampd event-dispatch engine and its multisig handler.

The definitions below are shallow embeddings of the Rust sources:
  * `src/ampd/src/event_processor.rs` (`consume_events`, `EventProcessor::run`,
    `EventProcessor::monitor_set`, the `EventHandler` trait and its `chain` combinator),
  * `src/ampd/src/handlers/multisig.rs` (`Handler::handle`, `to_recoverable`),
  * `src/ampd/src/json_rpc.rs` (`Client::request`),
  * `src/ampd/src/tm_client.rs` (`TmClient for HttpClient`).
Machine integers are modelled as `Nat`; bytes are `Nat`s below 256; fallible
Rust functions return `Except`/`Option`; asynchronous behaviour is modelled by
explicit durations compared against the literal timeout bounds of the source,
and a `panic!`/`expect` abort is a dedicated constructor of the outcome type.
-/

/-! ## Events (the `events` crate as used by the dispatch engine and handlers)

`events::Event` has the variants `BlockBegin`, `BlockEnd` and `Abci`.  The
multisig handler deserializes an `Abci` event of type `wasm-signing_started`
into a `SigningStartedEvent`; an `Abci` payload is modelled as either the
well-formed fields of that struct or as malformed attributes (the two outcomes
of `try_into` on a matching event type). -/

/-- Fields of `SigningStartedEvent` from `src/ampd/src/handlers/multisig.rs`:
contract address, session id, participant public keys (SEC1 bytes, keyed by
worker address) and the 32-byte message digest. -/
structure SigningStartedFields where
  contract_address : String
  session_id : Nat
  pub_keys : List (String × List Nat)
  msg : List Nat
deriving DecidableEq

/-- Attribute payload of an Abci event, as seen through `try_into`:
either fields that deserialize into `SigningStartedFields`, or malformed
attributes whose deserialization fails. -/
inductive AbciPayload where
  | signingStarted (fields : SigningStartedFields)
  | malformed
deriving DecidableEq

/-- The `events::Event` variants used by the sources. -/
inductive Event where
  | blockBegin (height : Nat)
  | blockEnd (height : Nat)
  | abci (event_type : String) (payload : AbciPayload)
deriving DecidableEq

/-- `matches!(event, Event::BlockEnd(_))` from `consume_events`. -/
def Event.isBlockEnd : Event → Bool
  | .blockEnd _ => true
  | _ => false

/-! ## The event processor (`src/ampd/src/event_processor.rs`) -/

/-- `EventProcessorError` of the source. -/
inductive EventProcessorError where
  | eventHandlerError
  | eventStreamError
  | handlerFailed
deriving DecidableEq

/-- The join outcome of one spawned consumption task: it returned `Ok(())`,
returned `Err(e)`, or panicked (so that `JoinSet::join_next` yields a join
error for it). -/
inductive TaskOutcome where
  | ok
  | err (e : EventProcessorError)
  | panicked
deriving DecidableEq

instance {ε α : Type} [DecidableEq ε] [DecidableEq α] : DecidableEq (Except ε α) := fun a b =>
  match a, b with
  | .error e, .error f =>
    if h : e = f then isTrue (congrArg Except.error h)
    else isFalse fun hh => h (Except.error.inj hh)
  | .ok x, .ok y =>
    if h : x = y then isTrue (congrArg Except.ok h)
    else isFalse fun hh => h (Except.ok.inj hh)
  | .error _, .ok _ => isFalse fun hh => Except.noConfusion hh
  | .ok _, .error _ => isFalse fun hh => Except.noConfusion hh

/-- Behaviour of one handler invocation: how many milliseconds the `handle`
future takes to resolve, and its result (the concrete error payload is
irrelevant to the engine and is modelled as `Unit`). -/
structure HandlerBehavior where
  duration : Nat
  result : Except Unit Unit
deriving DecidableEq

/-- Resolution of one handler invocation inside `consume_events`: the handler
returned `Ok`, returned `Err`, or was cut off by the 20-second deadline. -/
inductive HandlerRes where
  | success
  | failed
  | timedOut
deriving DecidableEq

/-- Observable dispatch actions of a consumption task: the start of a handler
invocation on an event, and its resolution. -/
inductive DispatchAction where
  | invokeStart (e : Event)
  | invokeEnd (e : Event) (r : HandlerRes)
deriving DecidableEq

/-- `Duration::from_millis(20000)`: the handler deadline of `consume_events`. -/
def handlerTimeoutMillis : Nat := 20000

/-- How a single invocation of the bound handler on `e` resolves under the
`time::timeout` wrapper of `consume_events`. -/
def resolveRes (handler : Event → HandlerBehavior) (e : Event) : HandlerRes :=
  let b := handler e
  if handlerTimeoutMillis < b.duration then HandlerRes.timedOut
  else match b.result with
    | .error _ => HandlerRes.failed
    | .ok _ => HandlerRes.success

/-- `consume_events` of `src/ampd/src/event_processor.rs`.  The stream is a
list of items (`Ok` event or stream error), `cancelled i` is the value of
`token.is_cancelled()` observed at the checkpoint after handling the `i`-th
item, and the result is the join outcome of the task together with the trace
of handler invocations it performed, in order.  A timed-out invocation hits
`.expect("handler timed out")` and panicks the task. -/
def consume_events (handler : Event → HandlerBehavior) (cancelled : Nat → Bool) :
    List (Except Unit Event) → Nat → TaskOutcome × List DispatchAction
  | [], _ => (TaskOutcome.ok, [])
  | Except.error _ :: _, _ => (TaskOutcome.err EventProcessorError.eventStreamError, [])
  | Except.ok e :: rest, i =>
    let b := handler e
    if handlerTimeoutMillis < b.duration then
      (TaskOutcome.panicked, [DispatchAction.invokeStart e, DispatchAction.invokeEnd e HandlerRes.timedOut])
    else
      match b.result with
      | .error _ =>
        (TaskOutcome.err EventProcessorError.eventHandlerError,
          [DispatchAction.invokeStart e, DispatchAction.invokeEnd e HandlerRes.failed])
      | .ok _ =>
        if e.isBlockEnd && cancelled i then
          (TaskOutcome.ok, [DispatchAction.invokeStart e, DispatchAction.invokeEnd e HandlerRes.success])
        else
          let next := consume_events handler cancelled rest (i + 1)
          (next.1, DispatchAction.invokeStart e :: DispatchAction.invokeEnd e HandlerRes.success :: next.2)

/-- Result of `EventProcessor::run`: a `Result<(), EventProcessorError>`, or
the `panic!("all tasks exited unexpectedly")` abort of `monitor_set`. -/
inductive RunResult where
  | success
  | failure (e : EventProcessorError)
  | processAbort
deriving DecidableEq

/-- `EventProcessor::monitor_set`, applied to the join results of the spawned
tasks in completion order.  Every `join_next` arm of the `select!` loop leaves
the loop: a task that returned is reported (`return res`), a panicked task
becomes `bail!(EventProcessorError::HandlerFailed)`, and an empty set is
`panic!("all tasks exited unexpectedly")`.  The diagnostic `interval.tick()`
arm only logs and never affects the result. -/
def monitor_set : List TaskOutcome → RunResult
  | [] => RunResult.processAbort
  | TaskOutcome.ok :: _ => RunResult.success
  | TaskOutcome.err e :: _ => RunResult.failure e
  | TaskOutcome.panicked :: _ => RunResult.failure EventProcessorError.handlerFailed

/-- The fate of one registered task: it eventually finishes with a join
outcome, or it runs forever. -/
inductive TaskFate where
  | finishes (r : TaskOutcome)
  | never
deriving DecidableEq

/-- Indices of the registered tasks that eventually finish. -/
def finishingIndices (fates : List TaskFate) : List Nat :=
  (List.range fates.length).filter fun i =>
    match fates.get? i with
    | some (TaskFate.finishes _) => true
    | _ => false

/-- The join results delivered by `JoinSet::join_next`, given the fates of the
registered tasks and the order in which the finishing tasks complete. -/
def joinSeq (fates : List TaskFate) (order : List Nat) : List TaskOutcome :=
  order.filterMap fun i =>
    match fates.get? i with
    | some (TaskFate.finishes r) => some r
    | _ => none

/-- A completion order is any permutation of the indices of the tasks that
eventually finish. -/
def ValidOrder (fates : List TaskFate) (order : List Nat) : Prop :=
  List.Perm order (finishingIndices fates)

instance (fates : List TaskFate) (order : List Nat) : Decidable (ValidOrder fates order) :=
  inferInstanceAs (Decidable (List.Perm _ _))

/-- `EventProcessor::run`: spawn all registered tasks and hand the join set to
`monitor_set`. -/
def run (fates : List TaskFate) (order : List Nat) : RunResult :=
  monitor_set (joinSeq fates order)

/-- The dispatch trace of a task that handles exactly the listed events, in
order: each invocation starts, then resolves, before the next one starts. -/
def alternation (handler : Event → HandlerBehavior) : List Event → List DispatchAction
  | [] => []
  | e :: es =>
    DispatchAction.invokeStart e :: DispatchAction.invokeEnd e (resolveRes handler e) ::
      alternation handler es

/-- Number of events a task whose handler invocations all succeed handles
before stopping: everything up to and including the first event that is a
stream boundary handled while the cancellation token is signalled, or the
whole list when no such event occurs. -/
def stopLen (cancelled : Nat → Bool) : List Event → Nat → Nat
  | [], _ => 0
  | e :: es, i =>
    if e.isBlockEnd && cancelled i then 1 else stopLen cancelled es (i + 1) + 1

/-- `true` when no event of the list is a stream boundary observed while the
cancellation token is signalled, so that the cancellation checkpoint of
`consume_events` never fires on this portion of the stream. -/
def noCancelStop (cancelled : Nat → Bool) : List Event → Nat → Bool
  | [], _ => true
  | e :: es, i => !(e.isBlockEnd && cancelled i) && noCancelStop cancelled es (i + 1)

/-! ## The chain combinator (`EventHandler::chain`)

The combinator returned by `EventHandler::chain` is `chain::Handler`, whose
`handle` implementation lives in `src/ampd/src/handlers/chain.rs`; that file is
not among the provided sources, only its construction site in
`src/ampd/src/event_processor.rs` is. -/

/-- The two stages of a chained handler. -/
inductive ChainStage where
  | first
  | second
deriving DecidableEq

/-- Modelled from the spec: the body of `chain::Handler::handle` is missing
from the sources (only `EventHandler::chain`, which constructs it, is
present).  Per the spec, `chain(A, B)` yields a composite handler whose
`handle` first invokes A; if A fails, the composite fails with A's failure and
B is never invoked; if A succeeds, B is invoked on the same event and the
composite's outcome is B's outcome.  Handlers are modelled by their result on
the event, and the list of stages actually invoked is returned alongside the
composite's outcome. -/
def chainHandle {ε : Type} (ha hb : Event → Except ε Unit) (e : Event) :
    Except ε Unit × List ChainStage :=
  match ha e with
  | .error ea => (.error ea, [ChainStage.first])
  | .ok _ => (hb e, [ChainStage.first, ChainStage.second])

/-! ## Timeout-wrapped RPC clients (`src/ampd/src/json_rpc.rs`, `src/ampd/src/tm_client.rs`) -/

/-- Outcome of a timeout-wrapped client call: the wrapper returned the inner
result, or the `expect` on the elapsed timeout panicked with a message. -/
inductive CallOutcome where
  | returns (r : Except Unit Unit)
  | panics (msg : String)
deriving DecidableEq

/-- Whether a wrapped call panicked instead of returning. -/
def CallOutcome.isPanic : CallOutcome → Bool
  | .panics _ => true
  | .returns _ => false

/-- `Duration::from_millis(2000)`: the deadline of the wrapped RPC calls. -/
def rpcTimeoutMillis : Nat := 2000

/-- `Client::request` of `src/ampd/src/json_rpc.rs`: the provider call is
given by how long it takes and its result; `time::timeout(2000ms, ..)` feeds
`.expect("eth json RPC timed out")`. -/
def request (duration : Nat) (result : Except Unit Unit) : CallOutcome :=
  if rpcTimeoutMillis < duration then CallOutcome.panics "eth json RPC timed out"
  else CallOutcome.returns result

/-- `TmClient::latest_block` for `HttpClient` in `src/ampd/src/tm_client.rs`:
`time::timeout(2000ms, ..)` feeds `.expect("latest_block timed out")`. -/
def latest_block (duration : Nat) (result : Except Unit Unit) : CallOutcome :=
  if rpcTimeoutMillis < duration then CallOutcome.panics "latest_block timed out"
  else CallOutcome.returns result

/-- `TmClient::block_results` for `HttpClient` in `src/ampd/src/tm_client.rs`:
`time::timeout(2000ms, ..)` feeds `.expect("block_results timed out")`. -/
def block_results (duration : Nat) (result : Except Unit Unit) : CallOutcome :=
  if rpcTimeoutMillis < duration then CallOutcome.panics "block_results timed out"
  else CallOutcome.returns result

/-! ## secp256k1 arithmetic (the `k256`/`ecdsa` crates used by `to_recoverable`)

`to_recoverable` parses the raw scalars with
`ecdsa::Signature::<Secp256k1>::from_slice`, decodes the public key with
`VerifyingKey::from_sec1_bytes` and determines the recovery id with
`RecoveryId::trial_recovery_from_prehash`.  Those library functions are
embedded below over `Nat` arithmetic on the secp256k1 curve. -/

/-- The secp256k1 base field modulus. -/
def secpP : Nat := 0xFFFFFFFFFFFFFFFFFFFFFFFFFFFFFFFFFFFFFFFFFFFFFFFFFFFFFFFEFFFFFC2F

/-- The secp256k1 group order. -/
def secpN : Nat := 0xFFFFFFFFFFFFFFFFFFFFFFFFFFFFFFFEBAAEDCE6AF48A03BBFD25E8CD0364141

/-- x-coordinate of the secp256k1 generator. -/
def secpGx : Nat := 0x79BE667EF9DCBBAC55A06295CE870B07029BFCDB2DCE28D959F2815B16F81798

/-- y-coordinate of the secp256k1 generator. -/
def secpGy : Nat := 0x483ADA7726A3C4655DA4FBFC0E1108A8FD17B448A68554199C47D08FFB10D4B8

/-- Square-and-multiply exponentiation modulo `m`, with enough fuel for any
exponent below `2 ^ 256`. -/
def powModAux (m : Nat) : Nat → Nat → Nat → Nat
  | 0, _, _ => 1 % m
  | fuel + 1, b, e =>
    if e = 0 then 1 % m
    else
      let h := powModAux m fuel (b * b % m) (e / 2)
      if e % 2 = 1 then h * b % m else h

/-- `b ^ e % m` for exponents below `2 ^ 256`. -/
def powMod (b e m : Nat) : Nat := powModAux m 256 (b % m) e

/-- Addition in the secp256k1 base field. -/
def fadd (a b : Nat) : Nat := (a + b) % secpP

/-- Subtraction in the secp256k1 base field. -/
def fsub (a b : Nat) : Nat := (a + (secpP - b % secpP)) % secpP

/-- Multiplication in the secp256k1 base field. -/
def fmul (a b : Nat) : Nat := a * b % secpP

/-- Multiplicative inverse in the secp256k1 base field (Fermat). -/
def finv (a : Nat) : Nat := powMod a (secpP - 2) secpP

/-- A point of the curve in Jacobian coordinates; `z ≡ 0` is the identity. -/
structure JacPoint where
  x : Nat
  y : Nat
  z : Nat
deriving DecidableEq

/-- The identity of the curve group. -/
def jacInf : JacPoint := ⟨0, 1, 0⟩

/-- Point doubling in Jacobian coordinates (curve coefficient a = 0). -/
def jacDouble (P : JacPoint) : JacPoint :=
  if P.z % secpP = 0 || P.y % secpP = 0 then jacInf
  else
    let YY := fmul P.y P.y
    let S := fmul 4 (fmul P.x YY)
    let M := fmul 3 (fmul P.x P.x)
    let X3 := fsub (fmul M M) (fmul 2 S)
    let Y3 := fsub (fmul M (fsub S X3)) (fmul 8 (fmul YY YY))
    ⟨X3, Y3, fmul 2 (fmul P.y P.z)⟩

/-- Point addition in Jacobian coordinates. -/
def jacAdd (P Q : JacPoint) : JacPoint :=
  if P.z % secpP = 0 then Q
  else if Q.z % secpP = 0 then P
  else
    let Z1Z1 := fmul P.z P.z
    let Z2Z2 := fmul Q.z Q.z
    let U1 := fmul P.x Z2Z2
    let U2 := fmul Q.x Z1Z1
    let S1 := fmul P.y (fmul Z2Z2 Q.z)
    let S2 := fmul Q.y (fmul Z1Z1 P.z)
    if U1 = U2 then
      if S1 = S2 then jacDouble P else jacInf
    else
      let H := fsub U2 U1
      let HH := fmul H H
      let HHH := fmul H HH
      let V := fmul U1 HH
      let R := fsub S2 S1
      let X3 := fsub (fmul R R) (fadd HHH (fmul 2 V))
      let Y3 := fsub (fmul R (fsub V X3)) (fmul S1 HHH)
      ⟨X3, Y3, fmul H (fmul P.z Q.z)⟩

/-- An affine point with coordinates below `secpP`, in Jacobian form. -/
def jacOfAffine (a : Nat × Nat) : JacPoint := ⟨a.1 % secpP, a.2 % secpP, 1⟩

/-- Back to affine coordinates; `none` for the identity (which
`VerifyingKey::from_affine` rejects). -/
def jacToAffine (P : JacPoint) : Option (Nat × Nat) :=
  if P.z % secpP = 0 then none
  else
    let zi := finv (P.z % secpP)
    let zi2 := fmul zi zi
    some (fmul P.x zi2, fmul P.y (fmul zi2 zi))

/-- Double-and-add scalar multiplication, with fuel for scalars below
`2 ^ 256`. -/
def scmulAux : Nat → Nat → JacPoint → JacPoint → JacPoint
  | 0, _, acc, _ => acc
  | fuel + 1, k, acc, base =>
    if k = 0 then acc
    else scmulAux fuel (k / 2) (if k % 2 = 1 then jacAdd acc base else acc) (jacDouble base)

/-- `k • P` on secp256k1. -/
def scmul (k : Nat) (P : JacPoint) : JacPoint := scmulAux 256 k jacInf P

/-- SEC1 point decompression: the point with the given x-coordinate and the
given y-parity, when it exists (`AffinePoint::decompress`). -/
def liftX (x : Nat) (odd : Bool) : Option (Nat × Nat) :=
  if secpP ≤ x then none
  else
    let y2 := (x * x % secpP * x + 7) % secpP
    let y := powMod y2 ((secpP + 1) / 4) secpP
    if y * y % secpP = y2 then
      some (x, if (decide (y % 2 = 1)) == odd then y else (secpP - y) % secpP)
    else none

/-- Big-endian bytes to `Nat`. -/
def beNat (bytes : List Nat) : Nat := bytes.foldl (fun acc b => acc * 256 + b) 0

/-- `Nat` to fixed-width big-endian bytes (the `to_vec`/`to_repr` encoding of
a scalar uses width 32). -/
def natToBe : Nat → Nat → List Nat
  | 0, _ => []
  | len + 1, v => natToBe len (v / 256) ++ [v % 256]

/-- `VerifyingKey::from_sec1_bytes`: accepts a 33-byte compressed encoding
(tag 2 or 3) of a curve point, or a 65-byte uncompressed encoding (tag 4)
whose coordinates satisfy the curve equation; everything else (including the
identity encoding) is rejected. -/
def from_sec1_bytes (bytes : List Nat) : Option (Nat × Nat) :=
  match bytes with
  | 2 :: rest => if rest.length = 32 then liftX (beNat rest) false else none
  | 3 :: rest => if rest.length = 32 then liftX (beNat rest) true else none
  | 4 :: rest =>
    if rest.length = 64 then
      let x := beNat (rest.take 32)
      let y := beNat (rest.drop 32)
      if x < secpP ∧ y < secpP ∧ y * y % secpP = (x * x % secpP * x + 7) % secpP
      then some (x, y) else none
    else none
  | _ => none

/-- `ecdsa::Signature::<Secp256k1>::from_slice`: exactly 64 bytes, split into
big-endian scalars r and s, each of which must be nonzero and below the group
order. -/
def signature_from_slice (sig : List Nat) : Option (Nat × Nat) :=
  if sig.length = 64 then
    let r := beNat (sig.take 32)
    let s := beNat (sig.drop 32)
    if 0 < r ∧ r < secpN ∧ 0 < s ∧ s < secpN then some (r, s) else none
  else none

/-- `bits2field` applied to the prehash: at least half the field width, then
left-padded or truncated to 32 bytes and read big-endian. -/
def bits2field (digest : List Nat) : Option Nat :=
  if digest.length < 16 then none else some (beNat (digest.take 32))

/-- `VerifyingKey::recover_from_prehash` for recovery id `recid` (0–3): ids 2
and 3 use the x-reduced coordinate `r + n`, the low bit selects the y-parity
of the decompressed point R, and the candidate key is
`(-z r⁻¹) • G + (s r⁻¹) • R`, rejected when it is the identity. -/
def recover_from_prehash (z r s recid : Nat) : Option (Nat × Nat) :=
  let x := if 2 ≤ recid then r + secpN else r
  if secpP ≤ x then none
  else
    match liftX x (decide (recid % 2 = 1)) with
    | none => none
    | some Rpt =>
      let rinv := powMod r (secpN - 2) secpN
      let u1 := (secpN - z * rinv % secpN) % secpN
      let u2 := s * rinv % secpN
      jacToAffine (jacAdd (scmul u1 (jacOfAffine (secpGx, secpGy))) (scmul u2 (jacOfAffine Rpt)))

/-- `RecoveryId::trial_recovery_from_prehash`: the first recovery id in 0–3
whose recovered key equals the given key. -/
def trial_recovery_from_prehash (vk : Nat × Nat) (z r s : Nat) : Option Nat :=
  [0, 1, 2, 3].find? fun recid => recover_from_prehash z r s recid == some vk

/-! ## The multisig handler (`src/ampd/src/handlers/multisig.rs`) -/

/-- `crate::handlers::errors::Error` as used by the multisig handler
(`DeserializeEvent`, `Sign`, `Broadcaster`). -/
inductive HandlersError where
  | deserializeEvent
  | sign
  | broadcaster
deriving DecidableEq

/-- The `events::Error` outcomes of `try_into` on an event: the event type is
not the requested one, or its attributes fail to deserialize. -/
inductive EventsError where
  | eventTypeMismatch
  | deserializationFailed
deriving DecidableEq

/-- `SigningStartedEvent::try_from` (derived by `#[try_from("wasm-signing_started")]`):
only an Abci event whose type is `wasm-signing_started` matches, and its
attributes must deserialize. -/
def try_into_signing_started : Event → Except EventsError SigningStartedFields
  | Event.abci ty payload =>
    if ty = "wasm-signing_started" then
      match payload with
      | AbciPayload.signingStarted f => Except.ok f
      | AbciPayload.malformed => Except.error EventsError.deserializationFailed
    else Except.error EventsError.eventTypeMismatch
  | _ => Except.error EventsError.eventTypeMismatch

/-- `to_recoverable` of `src/ampd/src/handlers/multisig.rs`: parse the raw
scalars, decode the purported public key, find the recovery id by trial
recovery against the digest, and append the id plus 27 to the two re-encoded
32-byte scalars.  Every library failure is reported as `Error::Sign`. -/
def to_recoverable (sig digest pub_key : List Nat) : Except HandlersError (List Nat) :=
  match signature_from_slice sig with
  | none => Except.error HandlersError.sign
  | some (r, s) =>
    match from_sec1_bytes pub_key with
    | none => Except.error HandlersError.sign
    | some vk =>
      match bits2field digest with
      | none => Except.error HandlersError.sign
      | some zfull =>
        match trial_recovery_from_prehash vk (zfull % secpN) r s with
        | none => Except.error HandlersError.sign
        | some recid => Except.ok (natToBe 32 r ++ natToBe 32 s ++ [recid + 27])

/-- Side effects the multisig handler can perform: a call to the tofnd signer
and a broadcast of the submit-signature transaction. -/
inductive SideEffect where
  | signCall (key_id : String) (digest : List Nat) (pub_key : List Nat)
  | broadcastCall (session_id : Nat) (signature : List Nat)
deriving DecidableEq

/-- The configured identity of a multisig `Handler`: its worker address and
the multisig contract address. -/
structure MultisigHandler where
  worker : String
  multisig : String
deriving DecidableEq

/-- `Handler::handle` of `src/ampd/src/handlers/multisig.rs`.  The signer and
broadcaster collaborators are given as result functions; the produced side
effects are returned next to the outcome.  An event of another type is a
silent success; a failed deserialization is `Error::DeserializeEvent`; a
foreign contract address or a worker that is not a participant is a silent
success; otherwise the digest is signed, made recoverable and broadcast. -/
def handle (h : MultisigHandler)
    (signer : String → List Nat → List Nat → Except Unit (List Nat))
    (broadcaster : Nat → List Nat → Except Unit Unit)
    (event : Event) : Except HandlersError Unit × List SideEffect :=
  match try_into_signing_started event with
  | Except.error EventsError.eventTypeMismatch => (Except.ok (), [])
  | Except.error EventsError.deserializationFailed =>
    (Except.error HandlersError.deserializeEvent, [])
  | Except.ok f =>
    if h.multisig ≠ f.contract_address then (Except.ok (), [])
    else
      match f.pub_keys.lookup h.worker with
      | none => (Except.ok (), [])
      | some pk =>
        let called := [SideEffect.signCall h.multisig f.msg pk]
        match signer h.multisig f.msg pk with
        | Except.error _ => (Except.error HandlersError.sign, called)
        | Except.ok sigBytes =>
          match to_recoverable sigBytes f.msg pk with
          | Except.error e => (Except.error e, called)
          | Except.ok recoverable =>
            match broadcaster f.session_id recoverable with
            | Except.error _ =>
              (Except.error HandlersError.broadcaster,
                called ++ [SideEffect.broadcastCall f.session_id recoverable])
            | Except.ok _ =>
              (Except.ok (), called ++ [SideEffect.broadcastCall f.session_id recoverable])

/-- The events outside the multisig handler applicability set, per the three
inapplicability conditions of the source: not a `wasm-signing_started` Abci
event, or a contract address different from the configured multisig address,
or a participant set that does not contain the configured worker. -/
def inapplicable (h : MultisigHandler) : Event → Bool
  | Event.abci ty payload =>
    if ty = "wasm-signing_started" then
      match payload with
      | AbciPayload.signingStarted f =>
        h.multisig != f.contract_address || (f.pub_keys.lookup h.worker).isNone
      | AbciPayload.malformed => false
    else true
  | _ => true

/-! ## The fixed test vector of `should_convert_signature_to_recoverable` -/

/-- Scalar r of the fixed 65-byte ethers-style signature of the test. -/
def vecR : Nat := 0x74ab5ec395cdafd861dec309c30f6cf8884fc9905eb861171e636d9797478adb

/-- Scalar s of the fixed 65-byte ethers-style signature of the test. -/
def vecS : Nat := 0x60b2bfceb7db0a08769ed7a60006096d3e0f6d3783d125600ac6306180ecbc6f

/-- The 64-byte raw signature handed to `to_recoverable` by the test
(`signature.to_vec()`, the two big-endian scalars). -/
def vecSig : List Nat := natToBe 32 vecR ++ natToBe 32 vecS

/-- The 32-byte digest of the test
(`6ac52b00f4256d98d53c256949288135c14242a39001d5fdfa564ea003ccaf92`). -/
def vecDigest : List Nat :=
  natToBe 32 0x6ac52b00f4256d98d53c256949288135c14242a39001d5fdfa564ea003ccaf92

/-- The compressed SEC1 public key of the test
(`03571a2dcec96eecc7950c9f36367fd459b8d334bac01ac153b7ed3dcf4025fc22`). -/
def vecPubKey : List Nat :=
  3 :: natToBe 32 0x571a2dcec96eecc7950c9f36367fd459b8d334bac01ac153b7ed3dcf4025fc22

/-! ## Theorems -/

/-- Claim C1, counterexample: with two registered tasks of which the first
finishes successfully while the second never finishes, `run` resolves to
success even though not every registered task completed — the monitor does
not keep waiting for the remaining tasks after a successful completion. -/
theorem run_success_with_pending_task :
    ValidOrder [TaskFate.finishes TaskOutcome.ok, TaskFate.never] [0] ∧
    run [TaskFate.finishes TaskOutcome.ok, TaskFate.never] [0] = RunResult.success ∧
    ¬ ∀ f ∈ [TaskFate.finishes TaskOutcome.ok, TaskFate.never],
        f = TaskFate.finishes TaskOutcome.ok := by
  decide

/-- Claim C1, amended: `run()` returns the outcome of the first task to
finish.  It resolves to success exactly when the first observed join result
is a successful completion, regardless of the tasks still running; it does
not wait for the rest. -/
theorem run_success_iff_first_finisher_ok (fates : List TaskFate) (order : List Nat) :
    run fates order = RunResult.success ↔
      (joinSeq fates order).head? = some TaskOutcome.ok := by
  unfold run
  cases h : joinSeq fates order with
  | nil => simp [monitor_set]
  | cons a t => cases a <;> simp [monitor_set]

/-- Claim C2, counterexample: with two registered tasks where one completes
successfully first and the other then terminates with a handler failure,
`run` resolves to success — the failure is never surfaced, so `run` does not
return the first encountered failure. -/
theorem run_misses_failure_after_success :
    ValidOrder
      [TaskFate.finishes TaskOutcome.ok,
        TaskFate.finishes (TaskOutcome.err EventProcessorError.eventHandlerError)] [0, 1] ∧
    TaskFate.finishes (TaskOutcome.err EventProcessorError.eventHandlerError) ∈
      [TaskFate.finishes TaskOutcome.ok,
        TaskFate.finishes (TaskOutcome.err EventProcessorError.eventHandlerError)] ∧
    run
      [TaskFate.finishes TaskOutcome.ok,
        TaskFate.finishes (TaskOutcome.err EventProcessorError.eventHandlerError)] [0, 1] =
      RunResult.success := by
  decide

/-- Claim C2, amended: when the first task to finish terminates with a
failure, `run()` returns exactly that failure at once — whatever the
outcomes of the remaining tasks are, they are neither waited for nor
aggregated into the result; a panicked first finisher is surfaced as the
single `HandlerFailed` error.  A failure that terminates after another task
has already finished successfully is, however, not surfaced. -/
theorem run_returns_first_finisher_failure (fates : List TaskFate) (order : List Nat)
    (rest : List TaskOutcome) :
    (∀ e, joinSeq fates order = TaskOutcome.err e :: rest →
      run fates order = RunResult.failure e) ∧
    (joinSeq fates order = TaskOutcome.panicked :: rest →
      run fates order = RunResult.failure EventProcessorError.handlerFailed) := by
  constructor
  · intro e h
    unfold run
    rw [h, monitor_set]
  · intro h
    unfold run
    rw [h, monitor_set]

/-- Witness for the amended claim C2: a first finisher failing with a stream
error is returned as the result even though a second, successful task and a
never-finishing task are registered. -/
theorem run_returns_first_finisher_failure_witness :
    run
      [TaskFate.finishes (TaskOutcome.err EventProcessorError.eventStreamError),
        TaskFate.finishes TaskOutcome.ok, TaskFate.never] [0, 1] =
      RunResult.failure EventProcessorError.eventStreamError :=
  (run_returns_first_finisher_failure _ _ [TaskOutcome.ok]).1
    EventProcessorError.eventStreamError (by rfl)

/-- Claim C3: within a single stream the consumption task dispatches events
to the bound handler strictly in arrival order.  Over a stream emitting the
events `e1..en`, the dispatch trace of `consume_events` is exactly the
start/resolve alternation over some prefix of those events in arrival order:
every invocation is fully resolved (success, failure or fault) before the
next one starts, no event is handled twice, and no later event is handled
before an earlier one. -/
theorem consume_events_dispatch_in_order (handler : Event → HandlerBehavior)
    (cancelled : Nat → Bool) (events : List Event) (i : Nat) :
    ∃ k ≤ events.length,
      (consume_events handler cancelled (events.map Except.ok) i).2 =
        alternation handler (events.take k) := by
  induction events generalizing i with
  | nil => exact ⟨0, Nat.le_refl 0, rfl⟩
  | cons e es ih =>
    simp only [List.map_cons]
    by_cases ht : handlerTimeoutMillis < (handler e).duration
    · refine ⟨1, by simp, ?_⟩
      simp [consume_events, alternation, resolveRes, ht]
    · cases hr : (handler e).result with
      | error u =>
        refine ⟨1, by simp, ?_⟩
        simp [consume_events, alternation, resolveRes, ht, hr]
      | ok u =>
        by_cases hb : (e.isBlockEnd && cancelled i) = true
        · refine ⟨1, by simp, ?_⟩
          simp [consume_events, alternation, resolveRes, ht, hr, hb]
        · obtain ⟨k, hk, htr⟩ := ih (i + 1)
          refine ⟨k + 1, by simpa using Nat.succ_le_succ hk, ?_⟩
          simp [consume_events, alternation, resolveRes, ht, hr, hb, htr]

/-- Claim C4: cancellation is boundary-aligned.  When every handler
invocation resolves successfully, the task handles the stream events in
order up to and including the first event that is the stream-boundary
variant observed while the cancellation token is signalled (`stopLen`), and
then terminates as `Completed` (`TaskOutcome.ok`).  Signalling the scope
never stops the task mid-event or at a non-boundary event — every event
before that first signalled boundary, boundary or not, is fully handled —
and the stopping boundary event itself is fully handled (its resolution is
part of the trace) before the task stops. -/
theorem consume_events_boundary_cancellation (handler : Event → HandlerBehavior)
    (cancelled : Nat → Bool) (events : List Event) (i : Nat)
    (hok : ∀ e ∈ events, resolveRes handler e = HandlerRes.success) :
    consume_events handler cancelled (events.map Except.ok) i =
      (TaskOutcome.ok, alternation handler (events.take (stopLen cancelled events i))) := by
  revert hok
  induction events generalizing i with
  | nil => intro _; rfl
  | cons e es ih =>
    intro hok
    have he := hok e (List.mem_cons_self e es)
    by_cases ht : handlerTimeoutMillis < (handler e).duration
    · exact absurd he (by simp [resolveRes, ht])
    · cases hr : (handler e).result with
      | error u => exact absurd he (by simp [resolveRes, ht, hr])
      | ok u =>
        have ihe := ih (i + 1) (fun x hx => hok x (List.mem_cons_of_mem e hx))
        by_cases hb : (e.isBlockEnd && cancelled i) = true
        · simp [consume_events, stopLen, alternation, resolveRes, ht, hr, hb]
        · simp [consume_events, stopLen, alternation, resolveRes, ht, hr, hb, ihe]

/-- Witness for claim C4: a concrete always-successful handler with the token
signalled from the third checkpoint on.  The boundary event at index 0 is
handled without stopping (token not yet signalled), the non-boundary event at
index 1 and the boundary at index 2 are fully handled, and the task stops at
that signalled boundary, never touching the remaining two events. -/
theorem consume_events_boundary_cancellation_witness :
    consume_events (fun _ => ⟨0, Except.ok ()⟩) (fun i => decide (2 ≤ i))
        ([Event.blockEnd 0, Event.abci "wasm-other" AbciPayload.malformed, Event.blockEnd 1,
          Event.blockBegin 2, Event.blockEnd 3].map Except.ok) 0 =
      (TaskOutcome.ok,
        alternation (fun _ => ⟨0, Except.ok ()⟩)
          [Event.blockEnd 0, Event.abci "wasm-other" AbciPayload.malformed, Event.blockEnd 1]) := by
  have h := consume_events_boundary_cancellation (fun _ => ⟨0, Except.ok ()⟩)
    (fun i => decide (2 ≤ i))
    [Event.blockEnd 0, Event.abci "wasm-other" AbciPayload.malformed, Event.blockEnd 1,
      Event.blockBegin 2, Event.blockEnd 3] 0 (by decide)
  exact h.trans (by rfl)

/-- Helper: a task consumes a prefix of successfully handled, non-stopping
events and then continues on the remaining stream with the index advanced. -/
theorem consume_events_through_ok_events (handler : Event → HandlerBehavior)
    (cancelled : Nat → Bool) (rest : List (Except Unit Event)) :
    ∀ (pre : List Event) (i : Nat),
      (∀ x ∈ pre, resolveRes handler x = HandlerRes.success) →
      noCancelStop cancelled pre i = true →
      consume_events handler cancelled (pre.map Except.ok ++ rest) i =
        ((consume_events handler cancelled rest (i + pre.length)).1,
          alternation handler pre ++ (consume_events handler cancelled rest (i + pre.length)).2) := by
  intro pre
  induction pre with
  | nil => intro i _ _; simp [alternation]
  | cons x xs ih =>
    intro i hok hstop
    have hx := hok x (List.mem_cons_self x xs)
    by_cases ht : handlerTimeoutMillis < (handler x).duration
    · exact absurd hx (by simp [resolveRes, ht])
    · cases hr : (handler x).result with
      | error u => exact absurd hx (by simp [resolveRes, ht, hr])
      | ok u =>
        simp only [noCancelStop, Bool.and_eq_true, Bool.not_eq_eq_eq_not, Bool.not_true] at hstop
        obtain ⟨hb', hrest⟩ := hstop
        have ihe := ih (i + 1) (fun y hy => hok y (List.mem_cons_of_mem x hy)) hrest
        have hlen : i + 1 + xs.length = i + (xs.length + 1) := by omega
        simp [consume_events, alternation, resolveRes, ht, hr, hb', ihe, hlen]

/-- Claim C5: every handler invocation inside a consumption task runs under
the bounded 20-second deadline (`handlerTimeoutMillis = 20 * 1000`).  When
the deadline elapses on the invocation for event `e`, after a prefix of
successfully handled events, the invocation is neither retried nor skipped:
the trace ends at that single timed-out invocation, no later stream item is
touched, and the task terminates as a fault (`TaskOutcome.panicked`), which
the engine monitor surfaces as the single terminal `HandlerFailed` failure
of the whole `run()` call, whatever the other join results are. -/
theorem consume_events_timeout_is_fatal (handler : Event → HandlerBehavior)
    (cancelled : Nat → Bool) (pre : List Event) (e : Event)
    (rest : List (Except Unit Event)) (i : Nat)
    (hok : ∀ x ∈ pre, resolveRes handler x = HandlerRes.success)
    (hstop : noCancelStop cancelled pre i = true)
    (ht : handlerTimeoutMillis < (handler e).duration) :
    consume_events handler cancelled (pre.map Except.ok ++ Except.ok e :: rest) i =
      (TaskOutcome.panicked,
        alternation handler pre ++
          [DispatchAction.invokeStart e, DispatchAction.invokeEnd e HandlerRes.timedOut]) ∧
    (∀ others, monitor_set (TaskOutcome.panicked :: others) =
      RunResult.failure EventProcessorError.handlerFailed) ∧
    handlerTimeoutMillis = 20 * 1000 := by
  refine ⟨?_, fun _ => rfl, rfl⟩
  rw [consume_events_through_ok_events handler cancelled (Except.ok e :: rest) pre i hok hstop]
  simp [consume_events, ht]

/-- Witness for claim C5: a handler that resolves instantly on boundary
events but needs 20001 ms on anything else; the boundary event is handled,
the next event trips the deadline, the task panicks without touching the
rest of the stream, and the monitor turns it into the terminal
`HandlerFailed` error. -/
theorem consume_events_timeout_is_fatal_witness :
    consume_events (fun ev => if ev.isBlockEnd then ⟨3, Except.ok ()⟩ else ⟨20001, Except.ok ()⟩)
        (fun _ => false)
        ([Event.blockEnd 0].map Except.ok ++ Except.ok (Event.blockBegin 1) ::
          [Except.ok (Event.blockEnd 2)]) 0 =
      (TaskOutcome.panicked,
        alternation (fun ev => if ev.isBlockEnd then ⟨3, Except.ok ()⟩ else ⟨20001, Except.ok ()⟩)
            [Event.blockEnd 0] ++
          [DispatchAction.invokeStart (Event.blockBegin 1),
            DispatchAction.invokeEnd (Event.blockBegin 1) HandlerRes.timedOut]) ∧
    (∀ others, monitor_set (TaskOutcome.panicked :: others) =
      RunResult.failure EventProcessorError.handlerFailed) ∧
    handlerTimeoutMillis = 20 * 1000 :=
  consume_events_timeout_is_fatal
    (fun ev => if ev.isBlockEnd then ⟨3, Except.ok ()⟩ else ⟨20001, Except.ok ()⟩)
    (fun _ => false) [Event.blockEnd 0] (Event.blockBegin 1) [Except.ok (Event.blockEnd 2)] 0
    (by decide) (by decide) (by decide)

set_option maxRecDepth 4000000 in
/-- Claim C6: the recoverable encoding produced by `to_recoverable` is the
two re-encoded 32-byte scalars followed by one recovery byte equal to the
recovery candidate found by trial recovery plus 27; and on the fixed test
vector of `should_convert_signature_to_recoverable` (signature
`74ab5ec3..ecbc6f1b`, public key `03571a2d..4025fc22`, digest
`6ac52b00..03ccaf92`) it reproduces exactly the original 65-byte
ethers-style encoding, whose recovery byte is 27 (candidate 0). -/
theorem to_recoverable_encoding :
    to_recoverable vecSig vecDigest vecPubKey = Except.ok (vecSig ++ [27]) ∧
    (∀ sig digest pub_key out, to_recoverable sig digest pub_key = Except.ok out →
      ∃ r s vk zf recid,
        signature_from_slice sig = some (r, s) ∧
        from_sec1_bytes pub_key = some vk ∧
        bits2field digest = some zf ∧
        trial_recovery_from_prehash vk (zf % secpN) r s = some recid ∧
        out = natToBe 32 r ++ natToBe 32 s ++ [recid + 27]) := by
  constructor
  · decide
  · intro sig digest pub_key out h
    unfold to_recoverable at h
    cases h1 : signature_from_slice sig with
    | none => simp only [h1] at h; exact Except.noConfusion h
    | some rs =>
      obtain ⟨r, s⟩ := rs
      simp only [h1] at h
      cases h2 : from_sec1_bytes pub_key with
      | none => simp only [h2] at h; exact Except.noConfusion h
      | some vk =>
        simp only [h2] at h
        cases h3 : bits2field digest with
        | none => simp only [h3] at h; exact Except.noConfusion h
        | some zf =>
          simp only [h3] at h
          cases h4 : trial_recovery_from_prehash vk (zf % secpN) r s with
          | none => simp only [h4] at h; exact Except.noConfusion h
          | some recid =>
            simp only [h4] at h
            exact ⟨r, s, vk, zf, recid, rfl, rfl, rfl, h4, (Except.ok.inj h).symm⟩

/-- Witness for the universal part of claim C6, at the fixed test vector:
the parsed scalars, decoded key, digest and recovery candidate 0 behind the
65-byte encoding. -/
theorem to_recoverable_encoding_witness :
    ∃ r s vk zf recid,
      signature_from_slice vecSig = some (r, s) ∧
      from_sec1_bytes vecPubKey = some vk ∧
      bits2field vecDigest = some zf ∧
      trial_recovery_from_prehash vk (zf % secpN) r s = some recid ∧
      vecSig ++ [27] = natToBe 32 r ++ natToBe 32 s ++ [recid + 27] :=
  to_recoverable_encoding.2 vecSig vecDigest vecPubKey (vecSig ++ [27])
    to_recoverable_encoding.1

/-- Claim C7: `to_recoverable` reports an error — never a silently defaulted
encoding — whenever the raw scalars do not parse as a valid secp256k1
signature, and whenever the purported public key does not decode from its
SEC1 bytes; in both cases the result is `Error::Sign` and no recoverable
encoding is produced. -/
theorem to_recoverable_reports_failures :
    (∀ sig digest pub_key, signature_from_slice sig = none →
      to_recoverable sig digest pub_key = Except.error HandlersError.sign) ∧
    (∀ sig digest pub_key, from_sec1_bytes pub_key = none →
      to_recoverable sig digest pub_key = Except.error HandlersError.sign) := by
  constructor
  · intro sig digest pub_key h
    unfold to_recoverable
    rw [h]
  · intro sig digest pub_key h
    unfold to_recoverable
    cases h1 : signature_from_slice sig with
    | none => rfl
    | some rs =>
      obtain ⟨r, s⟩ := rs
      rw [h]

/-- Witness for claim C7: the all-zero 64-byte signature does not parse
(r = s = 0), and a byte string starting with tag 5 is no SEC1 public key; in
both cases `to_recoverable` returns `Error::Sign`. -/
theorem to_recoverable_reports_failures_witness :
    to_recoverable (List.replicate 64 0) vecDigest vecPubKey =
      Except.error HandlersError.sign ∧
    to_recoverable vecSig vecDigest [5, 1, 2] = Except.error HandlersError.sign :=
  ⟨to_recoverable_reports_failures.1 _ _ _ (by decide),
    to_recoverable_reports_failures.2 _ _ _ (by decide)⟩

/-- Claim C8: the chain combinator short-circuits.  For all handlers A and B
and every event, `chain(A, B)` first invokes A; when A fails, the composite
fails with exactly A's failure and stage B is never invoked; when A
succeeds, B is invoked on the same event and the composite's outcome is B's
outcome. -/
theorem chain_short_circuits {ε : Type} (ha hb : Event → Except ε Unit) (e : Event) :
    (∀ ea, ha e = Except.error ea →
      chainHandle ha hb e = (Except.error ea, [ChainStage.first]) ∧
        ChainStage.second ∉ (chainHandle ha hb e).2) ∧
    (ha e = Except.ok () →
      chainHandle ha hb e = (hb e, [ChainStage.first, ChainStage.second])) := by
  constructor
  · intro ea h
    unfold chainHandle
    rw [h]
    exact ⟨rfl, by simp⟩
  · intro h
    unfold chainHandle
    rw [h]

/-- Witness for claim C8: a first handler failing with `Error::Sign` makes
the composite fail with that very failure without invoking the second
stage. -/
theorem chain_short_circuits_witness :
    chainHandle (fun _ => Except.error HandlersError.sign) (fun _ => Except.ok ())
        (Event.blockEnd 0) =
      (Except.error HandlersError.sign, [ChainStage.first]) ∧
    ChainStage.second ∉
      (chainHandle (fun _ => Except.error HandlersError.sign) (fun _ => Except.ok ())
        (Event.blockEnd 0)).2 :=
  (chain_short_circuits (fun _ => Except.error HandlersError.sign) (fun _ => Except.ok ())
    (Event.blockEnd 0)).1 HandlersError.sign rfl

/-- Claim C9: the multisig handler treats inapplicability as a silent
success.  For every event that is not a `wasm-signing_started` event, or
whose contract address differs from the configured multisig address, or
whose participant keys do not contain the configured worker, `handle`
returns `Ok(())` and performs no side effect: no signing call and no
broadcast. -/
theorem handle_inapplicable_is_silent (h : MultisigHandler)
    (signer : String → List Nat → List Nat → Except Unit (List Nat))
    (broadcaster : Nat → List Nat → Except Unit Unit) (event : Event)
    (hin : inapplicable h event = true) :
    handle h signer broadcaster event = (Except.ok (), []) := by
  cases event with
  | blockBegin n => rfl
  | blockEnd n => rfl
  | abci ty payload =>
    by_cases hty : ty = "wasm-signing_started"
    · subst hty
      cases payload with
      | malformed => simp [inapplicable] at hin
      | signingStarted f =>
        simp only [inapplicable, if_pos rfl] at hin
        rcases Bool.or_eq_true _ _ |>.mp hin with hne | hnone
        · have hne' : h.multisig ≠ f.contract_address := by simpa using hne
          simp [handle, try_into_signing_started, hne']
        · have hlk : f.pub_keys.lookup h.worker = none :=
            Option.isNone_iff_eq_none.mp hnone
          by_cases hmeq : h.multisig = f.contract_address
          · simp [handle, try_into_signing_started, hmeq, hlk]
          · simp [handle, try_into_signing_started, hmeq]
    · simp [handle, try_into_signing_started, hty]

/-- Witness for claim C9: a block-boundary event is outside the handler's
applicability set, and `handle` returns silent success without calling the
(always failing) signer or broadcaster. -/
theorem handle_inapplicable_is_silent_witness :
    handle ⟨"axelarworker", "axelarmultisig"⟩ (fun _ _ _ => Except.error ())
        (fun _ _ => Except.error ()) (Event.blockEnd 5) = (Except.ok (), []) :=
  handle_inapplicable_is_silent ⟨"axelarworker", "axelarmultisig"⟩
    (fun _ _ _ => Except.error ()) (fun _ _ => Except.error ()) (Event.blockEnd 5) (by rfl)

/-- Claim C10, counterexample: at 2001 ms — past the 2-second deadline —
all three timeout-wrapped RPC call sites (`Client::request`,
`latest_block`, `block_results`) panic through `expect` instead of
returning a failure result to the caller, even when the underlying
response would have been a success. -/
theorem rpc_timeout_panicks :
    request 2001 (Except.ok ()) = CallOutcome.panics "eth json RPC timed out" ∧
    latest_block 2001 (Except.ok ()) = CallOutcome.panics "latest_block timed out" ∧
    block_results 2001 (Except.ok ()) = CallOutcome.panics "block_results timed out" ∧
    (request 2001 (Except.ok ())).isPanic = true := by
  exact ⟨rfl, rfl, rfl, rfl⟩

/-- Claim C10, amended: the timeout-wrapped RPC client call sites abort on
timeout by the same mechanism as the handler deadline, rather than
propagating: when the wrapped JSON-RPC or Tendermint request exceeds the
2-second deadline the wrapper panicks via `expect`, and only a request that
finishes within the deadline has its result (success or failure) returned
to the caller. -/
theorem rpc_calls_abort_on_timeout (d : Nat) (r : Except Unit Unit) :
    (rpcTimeoutMillis < d →
      request d r = CallOutcome.panics "eth json RPC timed out" ∧
      latest_block d r = CallOutcome.panics "latest_block timed out" ∧
      block_results d r = CallOutcome.panics "block_results timed out") ∧
    (d ≤ rpcTimeoutMillis →
      request d r = CallOutcome.returns r ∧
      latest_block d r = CallOutcome.returns r ∧
      block_results d r = CallOutcome.returns r) := by
  constructor
  · intro hd
    refine ⟨?_, ?_, ?_⟩ <;> simp [request, latest_block, block_results, hd]
  · intro hd
    have hnd : ¬ rpcTimeoutMillis < d := Nat.not_lt.mpr hd
    refine ⟨?_, ?_, ?_⟩ <;> simp [request, latest_block, block_results, hnd]

/-- Witness for the amended claim C10: a request whose provider takes
2500 ms panicks at all three call sites even though the provider's own
result was an error that the claim would have had propagated. -/
theorem rpc_calls_abort_on_timeout_witness :
    request 2500 (Except.error ()) = CallOutcome.panics "eth json RPC timed out" ∧
    latest_block 2500 (Except.error ()) = CallOutcome.panics "latest_block timed out" ∧
    block_results 2500 (Except.error ()) = CallOutcome.panics "block_results timed out" :=
  (rpc_calls_abort_on_timeout 2500 (Except.error ())).1 (by decide)
